import Mathlib

/-!
Shallow embedding of the `sdr_network::network::TunTapInterface` class
(src/include/sdr-network/network/tun_tap_interface.h,
src/src/network/tun_tap_interface.cpp).

The class's observable state (name, type, file descriptor, running flag,
capture-thread ownership, four `uint64_t` traffic counters) is embedded as a
Lean structure.  Interactions with the operating system (open/ioctl/fcntl,
read/write results, configure ioctls) are nondeterministic from the program's
point of view; each operation takes the OS outcome as an explicit oracle
argument and computes the resulting object state exactly as the C++ member
function does.  The caller-supplied packet handler is modelled by the outcome
of its invocation (returns normally, throws a `std::exception`-derived
exception, or throws something else), and a capture-loop iteration reports
which bytes the handler was invoked with, so properties about handler
invocation are statements about the step function's output.

Machine integers: the counters are `std::atomic<uint64_t>`, so every counter
increment is performed modulo 2^64 (`inc64`).  The file descriptor is a C
`int`; only its sign is ever inspected, so it is embedded as `Int`.
-/

namespace SdrNetwork

/-- Models `TunTapInterface::Type` (an `enum class` with values TUN, TAP). -/
inductive TunTapType
  | TUN
  | TAP
deriving DecidableEq

/-- The observable state of a `TunTapInterface` object: the private members
`name_`, `type_`, `fd_`, `running_`, `capture_thread_` (embedded as the Bool
"the `unique_ptr` holds a thread"), and the four statistics counters.
Counters are `uint64_t` values, kept in `Nat` with all increments reduced
modulo 2^64. -/
structure TunTapInterface where
  name : String
  type_ : TunTapType
  fd : Int
  running : Bool
  capture_thread : Bool
  packets_received : Nat
  packets_sent : Nat
  bytes_received : Nat
  bytes_sent : Nat
deriving DecidableEq

/-- 64-bit wrapping addition, the semantics of `counter += d` on `uint64_t`. -/
def inc64 (c d : Nat) : Nat := (c + d) % 2 ^ 64

/-- The constructor `TunTapInterface(name, type)`: stores the name and type,
sets `fd_` to -1; `running_`, the thread pointer and all counters start at
their default values (false / null / 0). -/
def TunTapInterface.construct (name : String) (t : TunTapType) : TunTapInterface :=
  ⟨name, t, -1, false, false, 0, 0, 0, 0⟩

/-- Accessor `getName()`. -/
def getName (s : TunTapInterface) : String := s.name

/-- Accessor `getPacketsReceived()`. -/
def getPacketsReceived (s : TunTapInterface) : Nat := s.packets_received

/-- Accessor `getPacketsSent()`. -/
def getPacketsSent (s : TunTapInterface) : Nat := s.packets_sent

/-- Accessor `getBytesReceived()`. -/
def getBytesReceived (s : TunTapInterface) : Nat := s.bytes_received

/-- Accessor `getBytesSent()`. -/
def getBytesSent (s : TunTapInterface) : Nat := s.bytes_sent

/-- Accessor `isRunning()`. -/
def isRunning (s : TunTapInterface) : Bool := s.running

/-- The four counters as a tuple, for stating frame conditions. -/
def counters (s : TunTapInterface) : Nat × Nat × Nat × Nat :=
  (s.packets_received, s.packets_sent, s.bytes_received, s.bytes_sent)

/-- Pointwise order on the four counters of two states. -/
def countersLE (a b : TunTapInterface) : Prop :=
  a.packets_received ≤ b.packets_received ∧ a.packets_sent ≤ b.packets_sent ∧
  a.bytes_received ≤ b.bytes_received ∧ a.bytes_sent ≤ b.bytes_sent

instance (a b : TunTapInterface) : Decidable (countersLE a b) := by
  unfold countersLE; infer_instance

/-- Oracle for `open("/dev/net/tun", O_RDWR)`: either it fails (returns -1)
or yields a fresh nonnegative descriptor. -/
inductive OpenResult
  | err
  | ok (fd : Nat)
deriving DecidableEq

/-- Oracle for `ioctl(fd_, TUNSETIFF, &ifr)`: either it fails, or the kernel
creates the device and writes the assigned interface name into `ifr.ifr_name`. -/
inductive IoctlResult
  | err
  | ok (assignedName : String)
deriving DecidableEq

/-- `TunTapInterface::initialize()` (Linux path).  Opens the clone device,
issues TUNSETIFF, stores the kernel-assigned name into `name_`, then switches
the descriptor to non-blocking mode.  `fcntlOk` is the oracle for the
`fcntl` F_GETFL/F_SETFL pair.  On each failure path the code closes the
descriptor (if open) and sets `fd_` to -1 before returning false; note the
assignment `name_ = ifr.ifr_name` happens before the fcntl step, so the
fcntl-failure path keeps the kernel-assigned name. -/
def initDevice (s : TunTapInterface) (o : OpenResult) (i : IoctlResult)
    (fcntlOk : Bool) : Bool × TunTapInterface :=
  match o with
  | .err => (false, { s with fd := -1 })
  | .ok fd =>
    match i with
    | .err => (false, { s with fd := -1 })
    | .ok assignedName =>
      if fcntlOk then
        (true, { s with fd := (fd : Int), name := assignedName })
      else
        (false, { s with fd := -1, name := assignedName })

/-- Oracle for the five OS steps of `configure` (socket creation, SIOCGIFFLAGS,
SIOCSIFFLAGS, SIOCSIFADDR, SIOCSIFNETMASK): which step failed first, if any. -/
inductive ConfigureResult
  | sockErr
  | getFlagsErr
  | setFlagsErr
  | setAddrErr
  | setNetmaskErr
  | success
deriving DecidableEq

/-- `TunTapInterface::configure(ip_address, netmask)`.  All of its effects are
on a throwaway configuration socket and the kernel; no member of the object is
mutated on any path, and the return value mirrors which OS step failed. -/
def configure (s : TunTapInterface) (_ipAddress _netmask : String)
    (r : ConfigureResult) : Bool × TunTapInterface :=
  match r with
  | .success => (true, s)
  | _ => (false, s)

/-- `TunTapInterface::startCapture(packet_handler)`: fails if `fd_ < 0`
(not initialized) or `running_` is already true; otherwise sets `running_`
to true and spawns the single capture thread. -/
def startCapture (s : TunTapInterface) : Bool × TunTapInterface :=
  if s.fd < 0 then (false, s)
  else if s.running then (false, s)
  else (true, { s with running := true, capture_thread := true })

/-- `TunTapInterface::stopCapture()`: only if `running_` is true and the
thread pointer is non-null does it clear `running_`, join and release the
thread; otherwise it does nothing. -/
def stopCapture (s : TunTapInterface) : TunTapInterface :=
  if s.running ∧ s.capture_thread then
    { s with running := false, capture_thread := false }
  else s

/-- `TunTapInterface::~TunTapInterface()`: calls `stopCapture()`, then closes
the descriptor if open; the final state of the storage before the object
ends. -/
def destruct (s : TunTapInterface) : TunTapInterface :=
  { stopCapture s with fd := -1 }

/-- Move construction `TunTapInterface(TunTapInterface&&)`: the destination
takes every member (name moved, fd copied, running loaded, thread pointer
moved, counters loaded); afterwards only `other.fd_` and `other.running_`
are reset, and moving the `unique_ptr` leaves the source's thread pointer
null.  The source's counters are NOT reset, and the moved-from
`std::string` holds an unspecified value (its embedded value is left as the
old name; no theorem below relies on it).  Returns
(destination, moved-from source). -/
def moveConstruct (s : TunTapInterface) : TunTapInterface × TunTapInterface :=
  (s, { s with fd := -1, running := false, capture_thread := false })

/-- Move assignment `operator=(TunTapInterface&&)` for `dst = move src` with
`dst ≠ src` (the `this != &other` guard).  The destination first stops its own
capture and closes its own descriptor, then takes every member of the source;
the source is left with `fd_ = -1`, `running_ = false` and a null thread
pointer, its counters untouched.  Returns (new destination, moved-from
source). -/
def moveAssign (_dst src : TunTapInterface) : TunTapInterface × TunTapInterface :=
  (src, { src with fd := -1, running := false, capture_thread := false })

/-- Oracle for `read(fd_, buffer.data(), buffer.size())` in the capture loop:
a negative return with errno either EAGAIN/EWOULDBLOCK (`wouldBlock = true`)
or some other error, or a successful read of `data` (with
`data.length ≤ 2048`, the scratch-buffer size). -/
inductive ReadResult
  | err (wouldBlock : Bool)
  | ok (data : List Nat)
deriving DecidableEq

/-- Outcome of one invocation of the caller-supplied packet handler:
it returns normally, throws an exception derived from `std::exception`
(matched by the loop's `catch (const std::exception&)` clause), or throws
a value of any other type (matched by no clause). -/
inductive HandlerOutcome
  | ok
  | throwStd (msg : String)
  | throwOther
deriving DecidableEq

/-- Result of one completed capture-loop iteration: the object state after
the iteration, the scratch buffer contents, the bytes the handler was invoked
with (`none` if the handler was not called), and the `sleep_for` duration in
milliseconds taken on this iteration (0 if none). -/
structure StepResult where
  state : TunTapInterface
  buffer : List Nat
  handlerArg : Option (List Nat)
  delayMs : Nat
deriving DecidableEq

/-- Outcome of one capture-loop iteration: the loop exits because `running_`
was observed false; the iteration completes and the loop continues; or an
exception thrown by the handler matches no catch clause and escapes the loop
(carrying the state and scratch buffer at that point, and the bytes the
handler had been invoked with). -/
inductive StepOutcome
  | exit
  | next (r : StepResult)
  | escaped (state : TunTapInterface) (buffer : List Nat) (handlerArg : List Nat)
deriving DecidableEq

/-- One iteration of the `while (running_)` loop in
`TunTapInterface::captureThreadFunc` (Linux path).  `buffer` is the 2048-byte
scratch vector; `r` is the oracle for the `read` call and `h` for the handler
invocation.  On `nread < 0` with errno other than EAGAIN/EWOULDBLOCK the
loop logs and sleeps 10 ms, on EAGAIN/EWOULDBLOCK it retries immediately;
on `nread > 0` it increments the RX counters, copies the first `nread` bytes
of the scratch buffer into a fresh packet vector and invokes the handler
with it inside `try/catch (const std::exception&)`; on `nread == 0` it
sleeps 1 ms. -/
def captureStep (s : TunTapInterface) (buffer : List Nat) (r : ReadResult)
    (h : HandlerOutcome) : StepOutcome :=
  if s.running = false then .exit
  else
    match r with
    | .err wouldBlock =>
      if wouldBlock then .next ⟨s, buffer, none, 0⟩
      else .next ⟨s, buffer, none, 10⟩
    | .ok data =>
      if 0 < data.length then
        let s' : TunTapInterface :=
          { s with packets_received := inc64 s.packets_received 1,
                   bytes_received := inc64 s.bytes_received data.length }
        let buffer' := data ++ buffer.drop data.length
        let packet := buffer'.take data.length
        match h with
        | .ok => .next ⟨s', buffer', some packet, 0⟩
        | .throwStd _ => .next ⟨s', buffer', some packet, 0⟩
        | .throwOther => .escaped s' buffer' packet
      else
        .next ⟨s, buffer, none, 1⟩

/-- The object state after a capture-loop iteration, if the iteration ran. -/
def outState : StepOutcome → Option TunTapInterface
  | .exit => none
  | .next r => some r.state
  | .escaped st _ _ => some st

/-- The object state after a capture-loop iteration, defaulting to `s` when
the loop exited without running an iteration. -/
def outStateD (s : TunTapInterface) (o : StepOutcome) : TunTapInterface :=
  (outState o).getD s

/-- The bytes the handler was invoked with during the iteration, if it was
invoked at all. -/
def outHandlerArg : StepOutcome → Option (List Nat)
  | .exit => none
  | .next r => r.handlerArg
  | .escaped _ _ arg => some arg

/-- Whether the iteration ended with an exception escaping the capture loop. -/
def escapes : StepOutcome → Bool
  | .escaped _ _ _ => true
  | _ => false

/-- Whether the loop proceeds to the next iteration after this one. -/
def continuesLoop : StepOutcome → Bool
  | .next _ => true
  | _ => false

/-- `TunTapInterface::writePacket(packet)` (Linux path): fails immediately if
`fd_ < 0` or not running; otherwise performs one `write` call, whose outcome
is the oracle `w`.  On `written < 0` it returns false (logging unless
EAGAIN/EWOULDBLOCK); on `written ≥ 0` it increments `packets_sent_` by one
and `bytes_sent_` by `written` — the number of bytes the OS reports written,
not the packet length — and returns true. -/
inductive WriteResult
  | err (wouldBlock : Bool)
  | ok (written : Nat)
deriving DecidableEq

def writePacket (s : TunTapInterface) (_packet : List Nat) (w : WriteResult) :
    Bool × TunTapInterface :=
  if s.fd < 0 ∨ s.running = false then (false, s)
  else
    match w with
    | .err _ => (false, s)
    | .ok written =>
      (true, { s with packets_sent := inc64 s.packets_sent 1,
                      bytes_sent := inc64 s.bytes_sent written })

/-! ## Theorems about the claims -/

/-- Claim C1: for every successful read of N>0 bytes performed by the capture
loop, the received-packet counter increases by exactly 1 (as a `uint64_t`
increment), the received-byte counter increases by exactly N, and the handler
is invoked, within the same iteration of the capture loop, with the freshly
copied packet holding exactly the N bytes read — not the 2048-byte scratch
buffer. -/
theorem capture_read_success_updates (s : TunTapInterface) (buffer data : List Nat)
    (h : HandlerOutcome) (hrun : s.running = true) (hpos : 0 < data.length)
    (hle : data.length ≤ 2048) (hbuf : buffer.length = 2048) :
    outState (captureStep s buffer (ReadResult.ok data) h) =
      some { s with packets_received := inc64 s.packets_received 1,
                    bytes_received := inc64 s.bytes_received data.length } ∧
    outHandlerArg (captureStep s buffer (ReadResult.ok data) h) = some data := by
  have htake : (data ++ buffer.drop data.length).take data.length = data :=
    List.take_left data (buffer.drop data.length)
  cases h <;>
    simp [captureStep, hrun, hpos, outState, outHandlerArg, htake]

/-- Witness for C1 at a concrete running interface reading the two bytes
`[7, 8]` into a 2048-byte scratch buffer. -/
theorem capture_read_success_updates_witness :
    (⟨"tap0", TunTapType.TAP, 3, true, true, 0, 0, 0, 0⟩ : TunTapInterface).running = true ∧
    0 < [7, 8].length ∧ [7, 8].length ≤ 2048 ∧
    (List.replicate 2048 (0 : Nat)).length = 2048 ∧
    (outState (captureStep ⟨"tap0", TunTapType.TAP, 3, true, true, 0, 0, 0, 0⟩
        (List.replicate 2048 0) (ReadResult.ok [7, 8]) HandlerOutcome.ok) =
      some { (⟨"tap0", TunTapType.TAP, 3, true, true, 0, 0, 0, 0⟩ : TunTapInterface) with
               packets_received := inc64 0 1, bytes_received := inc64 0 2 } ∧
     outHandlerArg (captureStep ⟨"tap0", TunTapType.TAP, 3, true, true, 0, 0, 0, 0⟩
        (List.replicate 2048 0) (ReadResult.ok [7, 8]) HandlerOutcome.ok) = some [7, 8]) := by
  refine ⟨rfl, by decide, by decide, List.length_replicate 2048 0, ?_⟩
  exact capture_read_success_updates _ _ _ _ rfl (by decide) (by decide)
    (List.length_replicate 2048 0)

/-- Claim C5: at most one capture task exists per interface — if
`startCapture` succeeds, a second call without an intervening `stopCapture`
returns failure and leaves the state (in particular the single live thread)
unchanged, spawning nothing. -/
theorem startCapture_second_call_fails (s : TunTapInterface)
    (h1 : (startCapture s).1 = true) :
    (startCapture (startCapture s).2).1 = false ∧
    (startCapture (startCapture s).2).2 = (startCapture s).2 := by
  by_cases hfd : s.fd < 0
  · simp [startCapture, hfd] at h1
  · by_cases hrun : s.running
    · simp [startCapture, hfd, hrun] at h1
    · simp [startCapture, hfd, hrun]

/-- Witness for C5 at a concrete initialized, not-yet-running interface. -/
theorem startCapture_second_call_fails_witness :
    (startCapture ⟨"tap0", TunTapType.TAP, 3, false, false, 0, 0, 0, 0⟩).1 = true ∧
    ((startCapture (startCapture ⟨"tap0", TunTapType.TAP, 3, false, false, 0, 0, 0, 0⟩).2).1 =
        false ∧
     (startCapture (startCapture ⟨"tap0", TunTapType.TAP, 3, false, false, 0, 0, 0, 0⟩).2).2 =
        (startCapture ⟨"tap0", TunTapType.TAP, 3, false, false, 0, 0, 0, 0⟩).2) :=
  ⟨by decide, startCapture_second_call_fails _ (by decide)⟩

/-- Claim C8: `stopCapture` is idempotent — on a non-running interface it is
a no-op, and two consecutive calls leave the same state as one. -/
theorem stopCapture_idempotent (s : TunTapInterface) :
    stopCapture (stopCapture s) = stopCapture s ∧
    (s.running = false → stopCapture s = s) := by
  constructor
  · by_cases h : s.running ∧ s.capture_thread <;> simp [stopCapture, h]
  · intro h; simp [stopCapture, h]

/-- Witness for C8 at a concrete freshly constructed (non-running) interface. -/
theorem stopCapture_idempotent_witness :
    stopCapture (stopCapture (TunTapInterface.construct "tap0" TunTapType.TAP)) =
      stopCapture (TunTapInterface.construct "tap0" TunTapType.TAP) ∧
    ((TunTapInterface.construct "tap0" TunTapType.TAP).running = false →
      stopCapture (TunTapInterface.construct "tap0" TunTapType.TAP) =
        TunTapInterface.construct "tap0" TunTapType.TAP) :=
  stopCapture_idempotent _

/-- Claim C9: `writePacket` on an interface that is not initialized
(`fd_ < 0`) or not running returns failure and leaves the whole state — in
particular all four counters — unchanged. -/
theorem writePacket_not_running_fails (s : TunTapInterface) (p : List Nat)
    (w : WriteResult) (h : s.fd < 0 ∨ s.running = false) :
    writePacket s p w = (false, s) := by
  unfold writePacket
  rw [if_pos h]

/-- Witness for C9 at a concrete never-initialized interface. -/
theorem writePacket_not_running_fails_witness :
    ((TunTapInterface.construct "tap0" TunTapType.TAP).fd < 0 ∨
      (TunTapInterface.construct "tap0" TunTapType.TAP).running = false) ∧
    writePacket (TunTapInterface.construct "tap0" TunTapType.TAP) [1, 2]
        (WriteResult.ok 2) =
      (false, TunTapInterface.construct "tap0" TunTapType.TAP) :=
  ⟨Or.inl (by decide), writePacket_not_running_fails _ _ _ (Or.inl (by decide))⟩

/-- Claim C10: when the capture loop's read returns exactly 0 bytes, the
handler is not invoked, no counter changes, and the loop sleeps 1 ms and
continues to the next iteration. -/
theorem capture_read_zero_noop (s : TunTapInterface) (buffer : List Nat)
    (h : HandlerOutcome) (hrun : s.running = true) :
    captureStep s buffer (ReadResult.ok []) h =
      StepOutcome.next ⟨s, buffer, none, 1⟩ := by
  simp [captureStep, hrun]

/-- Witness for C10 at a concrete running interface. -/
theorem capture_read_zero_noop_witness :
    (⟨"tap0", TunTapType.TAP, 3, true, true, 0, 0, 0, 0⟩ : TunTapInterface).running = true ∧
    captureStep ⟨"tap0", TunTapType.TAP, 3, true, true, 0, 0, 0, 0⟩
        (List.replicate 2048 0) (ReadResult.ok []) HandlerOutcome.ok =
      StepOutcome.next
        ⟨⟨"tap0", TunTapType.TAP, 3, true, true, 0, 0, 0, 0⟩, List.replicate 2048 0, none, 1⟩ :=
  ⟨rfl, capture_read_zero_noop _ _ _ rfl⟩

/-- Counterexample to claim C2 as stated: on a running, initialized interface,
a `write` call that reports only 2 of the 4 requested bytes written (a short
write) still returns success, and the sent-byte counter increases by 2, not by
the packet's length 4. -/
theorem writePacket_short_write_counterexample :
    (writePacket ⟨"tap0", TunTapType.TAP, 3, true, true, 0, 0, 0, 0⟩ [1, 2, 3, 4]
        (WriteResult.ok 2)).1 = true ∧
    getBytesSent (writePacket ⟨"tap0", TunTapType.TAP, 3, true, true, 0, 0, 0, 0⟩ [1, 2, 3, 4]
        (WriteResult.ok 2)).2 ≠
      getBytesSent ⟨"tap0", TunTapType.TAP, 3, true, true, 0, 0, 0, 0⟩ + 4 := by
  decide

/-- Claim C2 (amended): for every packet of size 1..2048 passed to
`writePacket` on an initialized, running interface, a successful call
increments the sent-packet counter by exactly 1 and the sent-byte counter by
exactly the number of bytes the OS reports written; when the write is not
short that number is the packet's length. -/
theorem writePacket_success_counters (s : TunTapInterface) (p : List Nat) (n : Nat)
    (hfd : 0 ≤ s.fd) (hrun : s.running = true)
    (hlen : 1 ≤ p.length) (hlen2 : p.length ≤ 2048) (hn : n ≤ p.length) :
    (writePacket s p (WriteResult.ok n)).1 = true ∧
    (writePacket s p (WriteResult.ok n)).2.packets_sent = inc64 s.packets_sent 1 ∧
    (writePacket s p (WriteResult.ok n)).2.bytes_sent = inc64 s.bytes_sent n ∧
    (n = p.length →
      (writePacket s p (WriteResult.ok n)).2.bytes_sent = inc64 s.bytes_sent p.length) := by
  have hfd' : ¬ s.fd < 0 := not_lt.mpr hfd
  have hw : writePacket s p (WriteResult.ok n) =
      (true, { s with packets_sent := inc64 s.packets_sent 1,
                      bytes_sent := inc64 s.bytes_sent n }) := by
    simp [writePacket, hfd', hrun]
  refine ⟨by rw [hw], by rw [hw], by rw [hw], fun he => by rw [hw, he]⟩

/-- Witness for the amended C2 at a concrete running interface writing a
1-byte packet that the OS accepts in full. -/
theorem writePacket_success_counters_witness :
    (0 ≤ (⟨"tap0", TunTapType.TAP, 3, true, true, 0, 0, 0, 0⟩ : TunTapInterface).fd) ∧
    (⟨"tap0", TunTapType.TAP, 3, true, true, 0, 0, 0, 0⟩ : TunTapInterface).running = true ∧
    1 ≤ [9].length ∧ [9].length ≤ 2048 ∧ 1 ≤ [9].length ∧
    ((writePacket ⟨"tap0", TunTapType.TAP, 3, true, true, 0, 0, 0, 0⟩ [9]
        (WriteResult.ok 1)).1 = true ∧
     (writePacket ⟨"tap0", TunTapType.TAP, 3, true, true, 0, 0, 0, 0⟩ [9]
        (WriteResult.ok 1)).2.packets_sent = inc64 0 1 ∧
     (writePacket ⟨"tap0", TunTapType.TAP, 3, true, true, 0, 0, 0, 0⟩ [9]
        (WriteResult.ok 1)).2.bytes_sent = inc64 0 1 ∧
     (1 = [9].length →
       (writePacket ⟨"tap0", TunTapType.TAP, 3, true, true, 0, 0, 0, 0⟩ [9]
          (WriteResult.ok 1)).2.bytes_sent = inc64 0 [9].length)) :=
  ⟨by decide, rfl, by decide, by decide, by decide,
   writePacket_success_counters _ _ _ (by decide) rfl (by decide) (by decide) (by decide)⟩

/-- Counterexample to claim C4 as stated: requesting a device with an empty
name, the kernel creates the device and assigns the name "tun0", and then
setting non-blocking mode fails; `initialize` returns false but the
interface's name has changed from "" to "tun0" — an observable field differs
from the state before the call. -/
theorem initDevice_failure_mutates_name :
    (initDevice (TunTapInterface.construct "" TunTapType.TUN) (OpenResult.ok 3)
        (IoctlResult.ok "tun0") false).1 = false ∧
    getName (initDevice (TunTapInterface.construct "" TunTapType.TUN) (OpenResult.ok 3)
        (IoctlResult.ok "tun0") false).2 ≠
      getName (TunTapInterface.construct "" TunTapType.TUN) := by
  decide

/-- Claim C4 (amended): when `initialize` fails, no device handle is held
(`fd_ = -1`) and the running flag, thread ownership, type and all four
counters are unchanged; the name is unchanged when the open or the
device-creation ioctl failed, but when creation succeeded and only setting
non-blocking mode failed, the name keeps the kernel-assigned value. -/
theorem initDevice_failure_state (s : TunTapInterface) (o : OpenResult)
    (i : IoctlResult) (f : Bool) (hfail : (initDevice s o i f).1 = false) :
    (initDevice s o i f).2.fd = -1 ∧
    (initDevice s o i f).2.running = s.running ∧
    (initDevice s o i f).2.capture_thread = s.capture_thread ∧
    (initDevice s o i f).2.type_ = s.type_ ∧
    counters (initDevice s o i f).2 = counters s ∧
    (initDevice s o i f).2.name =
      (match o, i with
       | OpenResult.ok _, IoctlResult.ok nm => nm
       | _, _ => s.name) := by
  cases o with
  | err => simp [initDevice, counters]
  | ok fd =>
    cases i with
    | err => simp [initDevice, counters]
    | ok nm =>
      cases f with
      | true => simp [initDevice] at hfail
      | false => simp [initDevice, counters]

/-- Witness for the amended C4 at a concrete interface whose open call
fails. -/
theorem initDevice_failure_state_witness :
    (initDevice (TunTapInterface.construct "tun7" TunTapType.TUN) OpenResult.err
        IoctlResult.err false).1 = false ∧
    ((initDevice (TunTapInterface.construct "tun7" TunTapType.TUN) OpenResult.err
        IoctlResult.err false).2.fd = -1 ∧
     (initDevice (TunTapInterface.construct "tun7" TunTapType.TUN) OpenResult.err
        IoctlResult.err false).2.running =
       (TunTapInterface.construct "tun7" TunTapType.TUN).running ∧
     (initDevice (TunTapInterface.construct "tun7" TunTapType.TUN) OpenResult.err
        IoctlResult.err false).2.capture_thread =
       (TunTapInterface.construct "tun7" TunTapType.TUN).capture_thread ∧
     (initDevice (TunTapInterface.construct "tun7" TunTapType.TUN) OpenResult.err
        IoctlResult.err false).2.type_ =
       (TunTapInterface.construct "tun7" TunTapType.TUN).type_ ∧
     counters (initDevice (TunTapInterface.construct "tun7" TunTapType.TUN) OpenResult.err
        IoctlResult.err false).2 =
       counters (TunTapInterface.construct "tun7" TunTapType.TUN) ∧
     (initDevice (TunTapInterface.construct "tun7" TunTapType.TUN) OpenResult.err
        IoctlResult.err false).2.name =
       (match OpenResult.err, IoctlResult.err with
        | OpenResult.ok _, IoctlResult.ok nm => nm
        | _, _ => (TunTapInterface.construct "tun7" TunTapType.TUN).name)) :=
  ⟨by decide, initDevice_failure_state _ _ _ _ (by decide)⟩

/-- Counterexample to claim C6 as stated: the capture loop's catch clause
only matches exceptions derived from `std::exception`; a handler that throws
a value of any other type is not caught at the loop boundary, and the
exception escapes the capture loop. -/
theorem handler_non_std_fault_escapes :
    escapes (captureStep ⟨"tap0", TunTapType.TAP, 3, true, true, 0, 0, 0, 0⟩
        (List.replicate 2048 0) (ReadResult.ok [5]) HandlerOutcome.throwOther) = true := rfl

/-- Claim C6 (amended): every fault raised by the handler that is derived
from `std::exception` is caught at the loop boundary and neither propagates
out of the capture loop nor terminates it — the iteration completes and the
loop continues to process subsequent packets; only a thrown value not derived
from `std::exception` escapes. -/
theorem handler_std_faults_absorbed (s : TunTapInterface) (buffer : List Nat)
    (r : ReadResult) (h : HandlerOutcome) (hrun : s.running = true)
    (hno : h ≠ HandlerOutcome.throwOther) :
    escapes (captureStep s buffer r h) = false ∧
    continuesLoop (captureStep s buffer r h) = true := by
  cases r with
  | err wb => cases wb <;> simp [captureStep, hrun, escapes, continuesLoop]
  | ok data =>
    by_cases hpos : 0 < data.length
    · cases h with
      | ok => simp [captureStep, hrun, hpos, escapes, continuesLoop]
      | throwStd msg => simp [captureStep, hrun, hpos, escapes, continuesLoop]
      | throwOther => exact absurd rfl hno
    · simp [captureStep, hrun, hpos, escapes, continuesLoop]

/-- Witness for the amended C6: a handler throwing a `std::exception`-derived
fault on a concrete running interface; the loop absorbs it and continues. -/
theorem handler_std_faults_absorbed_witness :
    (⟨"tap0", TunTapType.TAP, 3, true, true, 0, 0, 0, 0⟩ : TunTapInterface).running = true ∧
    HandlerOutcome.throwStd "boom" ≠ HandlerOutcome.throwOther ∧
    (escapes (captureStep ⟨"tap0", TunTapType.TAP, 3, true, true, 0, 0, 0, 0⟩
        (List.replicate 2048 0) (ReadResult.ok [5]) (HandlerOutcome.throwStd "boom")) =
      false ∧
     continuesLoop (captureStep ⟨"tap0", TunTapType.TAP, 3, true, true, 0, 0, 0, 0⟩
        (List.replicate 2048 0) (ReadResult.ok [5]) (HandlerOutcome.throwStd "boom")) =
      true) :=
  ⟨rfl, by decide, handler_std_faults_absorbed _ _ _ _ rfl (by decide)⟩

/-- Counterexample to claim C3 as stated: the move constructor resets only
`fd_` and `running_` in the moved-from object, not its counters, so the
observable operation `getPacketsReceived()` on the moved-from source returns
the pre-move value 7 — not what an interface that had never been initialized
reports. -/
theorem moved_from_counters_not_reset :
    getPacketsReceived (moveConstruct ⟨"tap0", TunTapType.TAP, 3, false, false,
        7, 0, 0, 0⟩).2 ≠
      getPacketsReceived (TunTapInterface.construct "tap0" TunTapType.TAP) := by
  decide

/-- Claim C3 (amended): moving an interface (move construction or move
assignment) transfers all four counters and the running state exactly to the
destination; the moved-from source holds no device handle, reports
`isRunning() = false`, owns no thread, and every further lifecycle operation
on it (`startCapture`, `writePacket`, `stopCapture`) behaves as on a
never-initialized interface with no further side effects — but the counter
getters on the source keep returning the pre-move values rather than those of
a never-initialized interface. -/
theorem move_transfers_state_and_source_inert (s dst : TunTapInterface)
    (p : List Nat) (w : WriteResult) :
    (moveConstruct s).1 = s ∧
    (moveConstruct s).2.fd = -1 ∧
    isRunning (moveConstruct s).2 = false ∧
    (moveConstruct s).2.capture_thread = false ∧
    counters (moveConstruct s).2 = counters s ∧
    startCapture (moveConstruct s).2 = (false, (moveConstruct s).2) ∧
    writePacket (moveConstruct s).2 p w = (false, (moveConstruct s).2) ∧
    stopCapture (moveConstruct s).2 = (moveConstruct s).2 ∧
    (moveAssign dst s).1 = s ∧
    (moveAssign dst s).2.fd = -1 ∧
    isRunning (moveAssign dst s).2 = false ∧
    (moveAssign dst s).2.capture_thread = false ∧
    counters (moveAssign dst s).2 = counters s := by
  refine ⟨rfl, rfl, rfl, rfl, rfl, ?_, ?_, ?_, rfl, rfl, rfl, rfl, rfl⟩
  · simp [moveConstruct, startCapture]
  · simp [moveConstruct, writePacket]
  · simp [moveConstruct, stopCapture]

/-- Counterexample to claim C7 as stated: move assignment overwrites the
destination's counters with the source's, so assigning a freshly constructed
interface into one that has sent 5 packets drops its sent-packet counter from
5 to 0 — a decrease. -/
theorem moveAssign_decreases_counter :
    getPacketsSent (moveAssign ⟨"ifaceA", TunTapType.TAP, 3, false, false, 0, 5, 0, 0⟩
        (TunTapInterface.construct "ifaceB" TunTapType.TAP)).1 <
      getPacketsSent ⟨"ifaceA", TunTapType.TAP, 3, false, false, 0, 5, 0, 0⟩ := by
  decide

/-- `uint64_t` wrapping increment does not decrease a counter as long as the
mathematical sum stays below 2^64. -/
theorem le_inc64 {c d : Nat} (h : c + d < 2 ^ 64) : c ≤ inc64 c d := by
  unfold inc64
  rw [Nat.mod_eq_of_lt h]
  exact Nat.le_add_right c d

/-- `countersLE` is reflexive. -/
theorem countersLE_refl (s : TunTapInterface) : countersLE s s :=
  ⟨le_refl _, le_refl _, le_refl _, le_refl _⟩

/-- A capture-loop iteration whose read succeeded either leaves the state
untouched (loop was exiting, or 0 bytes read) or increments the two RX
counters, whatever the handler does. -/
theorem outStateD_captureStep_ok (s : TunTapInterface) (buffer data : List Nat)
    (h : HandlerOutcome) :
    outStateD s (captureStep s buffer (ReadResult.ok data) h) = s ∨
    outStateD s (captureStep s buffer (ReadResult.ok data) h) =
      { s with packets_received := inc64 s.packets_received 1,
               bytes_received := inc64 s.bytes_received data.length } := by
  by_cases hr : s.running = false
  · left; simp [captureStep, hr, outStateD, outState]
  · by_cases hpos : 0 < data.length
    · right; cases h <;> simp [captureStep, hr, hpos, outStateD, outState]
    · left; simp [captureStep, hr, hpos, outStateD, outState]

/-- Claim C7 (amended): over every operation other than move assignment into
an existing interface — construction-time initialization, `configure`,
`startCapture`, `stopCapture`, destruction, `writePacket`, a capture-loop
iteration, move construction (both halves) and the source half of move
assignment — no counter is ever reset and none decreases (counter updates are
`uint64_t` increments, so this holds whenever the mathematical sum stays
below 2^64); move assignment replaces the destination's counters wholesale
with the source's and can decrease them. -/
theorem counters_monotone_outside_move_assign (s t : TunTapInterface)
    (o : OpenResult) (i : IoctlResult) (f : Bool) (ip nm : String)
    (cr : ConfigureResult) (p buffer data : List Nat) (wb : Bool) (n : Nat)
    (h : HandlerOutcome)
    (hps : s.packets_sent + 1 < 2 ^ 64) (hbs : s.bytes_sent + n < 2 ^ 64)
    (hpr : s.packets_received + 1 < 2 ^ 64)
    (hbr : s.bytes_received + data.length < 2 ^ 64) :
    counters (initDevice s o i f).2 = counters s ∧
    counters (configure s ip nm cr).2 = counters s ∧
    counters (startCapture s).2 = counters s ∧
    counters (stopCapture s) = counters s ∧
    counters (destruct s) = counters s ∧
    counters (writePacket s p (WriteResult.err wb)).2 = counters s ∧
    countersLE s (writePacket s p (WriteResult.ok n)).2 ∧
    counters (outStateD s (captureStep s buffer (ReadResult.err wb) h)) = counters s ∧
    countersLE s (outStateD s (captureStep s buffer (ReadResult.ok data) h)) ∧
    counters (moveConstruct s).1 = counters s ∧
    counters (moveConstruct s).2 = counters s ∧
    counters (moveAssign t s).2 = counters s := by
  refine ⟨?_, ?_, ?_, ?_, ?_, ?_, ?_, ?_, ?_, rfl, rfl, rfl⟩
  · cases o with
    | err => simp [initDevice, counters]
    | ok fd =>
      cases i with
      | err => simp [initDevice, counters]
      | ok nm' => cases f <;> simp [initDevice, counters]
  · cases cr <;> simp [configure, counters]
  · by_cases h1 : s.fd < 0
    · simp [startCapture, h1]
    · by_cases h2 : s.running
      · simp [startCapture, h1, h2]
      · simp [startCapture, h1, h2, counters]
  · by_cases h1 : s.running ∧ s.capture_thread <;> simp [stopCapture, h1, counters]
  · by_cases h1 : s.running ∧ s.capture_thread <;>
      simp [destruct, stopCapture, h1, counters]
  · by_cases h1 : s.fd < 0 ∨ s.running = false <;> simp [writePacket, h1, counters]
  · by_cases h1 : s.fd < 0 ∨ s.running = false
    · rw [show writePacket s p (WriteResult.ok n) = (false, s) from by
        unfold writePacket; rw [if_pos h1]]
      exact countersLE_refl s
    · rw [show writePacket s p (WriteResult.ok n) =
          (true, { s with packets_sent := inc64 s.packets_sent 1,
                          bytes_sent := inc64 s.bytes_sent n }) from by
        simp [writePacket, h1]]
      exact ⟨le_refl _, le_inc64 hps, le_refl _, le_inc64 hbs⟩
  · by_cases hr : s.running = false
    · simp [captureStep, hr, outStateD, outState, counters]
    · cases wb <;> simp [captureStep, hr, outStateD, outState, counters]
  · rcases outStateD_captureStep_ok s buffer data h with he | he
    · rw [he]; exact countersLE_refl s
    · rw [he]; exact ⟨le_inc64 hpr, le_refl _, le_inc64 hbr, le_refl _⟩

/-- Witness for the amended C7 at a concrete running interface with all
counters at zero, exercising every operation of the conjunction. -/
theorem counters_monotone_outside_move_assign_witness :
    (0 : Nat) + 1 < 2 ^ 64 ∧ (0 : Nat) + 1 < 2 ^ 64 ∧ (0 : Nat) + 1 < 2 ^ 64 ∧
    (0 : Nat) + [5].length < 2 ^ 64 ∧
    (counters (initDevice ⟨"tap0", TunTapType.TAP, 3, true, true, 0, 0, 0, 0⟩
        OpenResult.err IoctlResult.err false).2 =
      counters ⟨"tap0", TunTapType.TAP, 3, true, true, 0, 0, 0, 0⟩ ∧
     counters (configure ⟨"tap0", TunTapType.TAP, 3, true, true, 0, 0, 0, 0⟩
        "192.168.10.1" "255.255.255.0" ConfigureResult.success).2 =
      counters ⟨"tap0", TunTapType.TAP, 3, true, true, 0, 0, 0, 0⟩ ∧
     counters (startCapture ⟨"tap0", TunTapType.TAP, 3, true, true, 0, 0, 0, 0⟩).2 =
      counters ⟨"tap0", TunTapType.TAP, 3, true, true, 0, 0, 0, 0⟩ ∧
     counters (stopCapture ⟨"tap0", TunTapType.TAP, 3, true, true, 0, 0, 0, 0⟩) =
      counters ⟨"tap0", TunTapType.TAP, 3, true, true, 0, 0, 0, 0⟩ ∧
     counters (destruct ⟨"tap0", TunTapType.TAP, 3, true, true, 0, 0, 0, 0⟩) =
      counters ⟨"tap0", TunTapType.TAP, 3, true, true, 0, 0, 0, 0⟩ ∧
     counters (writePacket ⟨"tap0", TunTapType.TAP, 3, true, true, 0, 0, 0, 0⟩ [9]
        (WriteResult.err true)).2 =
      counters ⟨"tap0", TunTapType.TAP, 3, true, true, 0, 0, 0, 0⟩ ∧
     countersLE ⟨"tap0", TunTapType.TAP, 3, true, true, 0, 0, 0, 0⟩
      (writePacket ⟨"tap0", TunTapType.TAP, 3, true, true, 0, 0, 0, 0⟩ [9]
        (WriteResult.ok 1)).2 ∧
     counters (outStateD ⟨"tap0", TunTapType.TAP, 3, true, true, 0, 0, 0, 0⟩
        (captureStep ⟨"tap0", TunTapType.TAP, 3, true, true, 0, 0, 0, 0⟩ []
          (ReadResult.err true) HandlerOutcome.ok)) =
      counters ⟨"tap0", TunTapType.TAP, 3, true, true, 0, 0, 0, 0⟩ ∧
     countersLE ⟨"tap0", TunTapType.TAP, 3, true, true, 0, 0, 0, 0⟩
      (outStateD ⟨"tap0", TunTapType.TAP, 3, true, true, 0, 0, 0, 0⟩
        (captureStep ⟨"tap0", TunTapType.TAP, 3, true, true, 0, 0, 0, 0⟩ []
          (ReadResult.ok [5]) HandlerOutcome.ok)) ∧
     counters (moveConstruct ⟨"tap0", TunTapType.TAP, 3, true, true, 0, 0, 0, 0⟩).1 =
      counters ⟨"tap0", TunTapType.TAP, 3, true, true, 0, 0, 0, 0⟩ ∧
     counters (moveConstruct ⟨"tap0", TunTapType.TAP, 3, true, true, 0, 0, 0, 0⟩).2 =
      counters ⟨"tap0", TunTapType.TAP, 3, true, true, 0, 0, 0, 0⟩ ∧
     counters (moveAssign (TunTapInterface.construct "tap1" TunTapType.TAP)
        ⟨"tap0", TunTapType.TAP, 3, true, true, 0, 0, 0, 0⟩).2 =
      counters ⟨"tap0", TunTapType.TAP, 3, true, true, 0, 0, 0, 0⟩) :=
  ⟨by decide, by decide, by decide, by decide,
   counters_monotone_outside_move_assign _ _ _ _ _ _ _ _ _ _ _ _ _ _
     (by decide) (by decide) (by decide) (by decide)⟩

end SdrNetwork
